import Mathlib

/-!
# Verification of the dependency-upgrade orchestrator

Shallow embedding of the upgrade core of `shepsci/claude-sequencer64`:

* `PackageBackup` — `create` / `restore` over an explicit file-system state
  (`upgrade-test.js`, class `PackageBackup`);
* `BuildTester.testBuild` — the build verifier (`upgrade-test.js`, class
  `BuildTester`);
* the orchestrator — `updateHomepageUrl`, `handleCompatibilityIssues`,
  `installDependencies`, `upgradeToVersion`, `performUpgrade`, and the CLI
  driver `mainRun` (the upgrade script appended in `src/App/App.js`,
  class `ReactScriptsUpgrader` and function `main`).

External effects (process invocations, file I/O outcomes) are modelled by an
environment of booleans; each orchestrator operation produces a trace of
`Event`s recording, in order, every log entry, mutation, external call and
backup operation it performs, so temporal claims are statements about traces.
-/

/-- Log levels of `UpgradeLogger` (`INFO`, `WARN`, `ERROR`, `SUCCESS`). -/
inductive LogLevel
  | info
  | warn
  | error
  | success
deriving DecidableEq, Repr

/-- Observable events of one orchestrator run, in execution order.
`buildAttempt legacy ok` is one invocation of the project build command:
`legacy = false` is the modern invocation (`CI=false npm run build`),
`legacy = true` is the compatibility invocation performed by
`BuildTester.testBuild` (`CI=false NODE_OPTIONS=--openssl-legacy-provider`). -/
inductive Event
  | logE : LogLevel → String → Event
  | createBackup : Bool → Event
  | editHomepage : Bool → Event
  | editBrowserslist : Bool → Event
  | cleanDeps : Bool → Event
  | installTarget : Nat → Bool → Event
  | installAll : Bool → Event
  | buildAttempt : Bool → Bool → Event
  | restoreBackup : Event
  | patchWorkflow : Event
  | installDeps : Bool → Event
  | attemptStep : Nat → Event
deriving DecidableEq, Repr

/-- `true` exactly on warning-level log events. -/
def Event.isWarn : Event → Bool
  | Event.logE LogLevel.warn _ => true
  | _ => false

/-- `true` exactly on build-command invocations. -/
def Event.isBuild : Event → Bool
  | Event.buildAttempt _ _ => true
  | _ => false

/-- The file-system state the `PackageBackup` class operates on:
the live manifest `./package.json`, the optional live lock file
`./package-lock.json`, and the two fixed backup paths
`./package.json.backup` and `./package-lock.json.backup`.
`none` means the file does not exist; `some c` is its byte content. -/
structure FS where
  manifest : Option String
  lockFile : Option String
  manifestBak : Option String
  lockBak : Option String
deriving DecidableEq, Repr

namespace PackageBackup

/-- `PackageBackup.create`: `copyFileSync('./package.json', backupFile)`,
then, only if `./package-lock.json` exists,
`copyFileSync('./package-lock.json', lockBackupFile)`.  A missing manifest
makes the first copy throw; the `catch` returns `false` with nothing copied.
Note the lock backup is left untouched when the live lock file is absent. -/
def create (fs : FS) : FS × Bool :=
  match fs.manifest with
  | none => (fs, false)
  | some m =>
    (⟨some m, fs.lockFile, some m,
      match fs.lockFile with
      | some l => some l
      | none => fs.lockBak⟩, true)

/-- `PackageBackup.restore`: `copyFileSync(backupFile, './package.json')`,
then, only if the lock backup exists,
`copyFileSync(lockBackupFile, './package-lock.json')`.  A missing manifest
backup makes the first copy throw; the `catch` returns `false`. -/
def restore (fs : FS) : FS × Bool :=
  match fs.manifestBak with
  | none => (fs, false)
  | some m =>
    (⟨some m,
      match fs.lockBak with
      | some l => some l
      | none => fs.lockFile,
      some m, fs.lockBak⟩, true)

/-- External mutation of the live files (the upgrade process rewriting the
manifest and lock file between backup operations): the backup paths are owned
exclusively by `PackageBackup` and are not touched. -/
def setLive (fs : FS) (m l : Option String) : FS :=
  ⟨m, l, fs.manifestBak, fs.lockBak⟩

end PackageBackup

namespace BuildTester

/-- `BuildTester.testBuild`: run the build command
(`CI=false NODE_OPTIONS=--openssl-legacy-provider npm run build`) with a
5-minute timeout. `exitOk` is whether the external command exited
successfully within the timeout; `stdout`/`stderr` its captured streams;
`buildDir` the listing of `./build` when that directory exists.  On success
the `./build` directory is inspected purely for logging; on failure the
captured output is logged at error level and `false` is returned. -/
def testBuild (exitOk : Bool) (stdout stderr : String)
    (buildDir : Option (List String)) : Bool × List Event :=
  match exitOk with
  | true =>
    (true,
      [Event.logE LogLevel.info "Testing build process...",
       Event.logE LogLevel.success "Build completed successfully",
       Event.logE LogLevel.info
         ("Build output length: " ++ toString stdout.length ++ " characters")] ++
      (match buildDir with
       | some files =>
         [Event.logE LogLevel.info
            ("Build directory contains " ++ toString files.length ++ " files"),
          Event.logE LogLevel.info
            ("Build files: " ++ String.intercalate ", " (files.take 10) ++
              (if files.length > 10 then "..." else ""))]
       | none => []))
  | false =>
    (false,
      [Event.logE LogLevel.info "Testing build process...",
       Event.logE LogLevel.error "Build failed: command failed",
       Event.logE LogLevel.error
         ("Build stderr: " ++ (if stderr = "" then "No stderr" else stderr)),
       Event.logE LogLevel.error
         ("Build stdout: " ++ (if stdout = "" then "No stdout" else stdout))])

end BuildTester

/-- Outcomes of the external operations one upgrade step performs, in the
order `upgradeToVersion` issues them, plus the outcomes of the operations the
orchestrator performs after the step (restore-path reinstall, success-path
reinstall, success-path final build test). -/
structure StepEnv where
  cleanOk : Bool
  installTargetOk : Bool
  installAllOk : Bool
  modernBuildOk : Bool
  legacyBuildOk : Bool
  restoreInstallOk : Bool
  finalInstallOk : Bool
  finalBuildOk : Bool
deriving DecidableEq, Repr

/-- Outcomes of the external operations of a whole run: backup creation, the
two cosmetic manifest edits, and one `StepEnv` per entry of the upgrade path
(the path length is the length of `steps`; the source's concrete path is
`upgradePath` below, with two entries). -/
structure Env where
  createOk : Bool
  homepageOk : Bool
  browserslistOk : Bool
  steps : List StepEnv
deriving DecidableEq, Repr

/-- The source's concrete upgrade path (`this.upgradePath`): target version
strings, iterated in order. -/
def upgradePath : List String := ["5.0.0", "5.0.1"]

/-- `updateHomepageUrl`: set `packageJson.homepage` and rewrite the manifest.
Any thrown error is caught and logged via `this.logger.error` — error level,
and not rethrown. -/
def updateHomepageUrl (ok : Bool) : List Event :=
  [Event.logE LogLevel.info "Updating homepage URL for new repository name...",
   Event.editHomepage ok] ++
  (if ok then [Event.logE LogLevel.success "Homepage URL updated to claude-sequencer64"]
   else [Event.logE LogLevel.error "Failed to update homepage"])

/-- `handleCompatibilityIssues`: rewrite `packageJson.browserslist` and
rewrite the manifest.  Any thrown error is caught and logged via
`this.logger.warn` — warning level, not rethrown. -/
def handleCompatibilityIssues (ok : Bool) : List Event :=
  [Event.logE LogLevel.info "Checking for compatibility issues...",
   Event.editBrowserslist ok] ++
  (if ok then [Event.logE LogLevel.success "Updated browserslist for compatibility"]
   else [Event.logE LogLevel.warn "Could not update browserslist"])

/-- `installDependencies`: `npm install --legacy-peer-deps`, returning `true`
on success and `false` (after an error log) when the command fails. -/
def installDependencies (ok : Bool) : List Event × Bool :=
  ([Event.logE LogLevel.info "Installing dependencies with legacy peer deps...",
    Event.installDeps ok] ++
   (if ok then [Event.logE LogLevel.success "Dependencies installed successfully"]
    else [Event.logE LogLevel.error "Dependency installation failed"]), ok)

/-- `upgradeToVersion` for the step at index `i` of the path: best-effort
clean of `node_modules`/lock file (failure only logs a warning), install the
target `react-scripts` version (failure aborts the step), install all
dependencies (failure aborts the step), then verify the build — first the
modern invocation `CI=false npm run build`; only when it fails, the legacy
invocation via `this.tester.testBuild()`.  Returns `true` exactly when the
installs succeeded and at least one build strategy succeeded. -/
def upgradeToVersion (i : Nat) (s : StepEnv) : List Event × Bool :=
  match s.installTargetOk with
  | false =>
    ((Event.cleanDeps s.cleanOk ::
       (if s.cleanOk then [] else [Event.logE LogLevel.warn "Could not clean dependencies"])) ++
     [Event.installTarget i false, Event.logE LogLevel.error "Upgrade step failed"], false)
  | true =>
    match s.installAllOk with
    | false =>
      ((Event.cleanDeps s.cleanOk ::
         (if s.cleanOk then [] else [Event.logE LogLevel.warn "Could not clean dependencies"])) ++
       [Event.installTarget i true, Event.installAll false,
        Event.logE LogLevel.error "Upgrade step failed"], false)
    | true =>
      match s.modernBuildOk with
      | true =>
        ((Event.cleanDeps s.cleanOk ::
           (if s.cleanOk then [] else [Event.logE LogLevel.warn "Could not clean dependencies"])) ++
         [Event.installTarget i true, Event.installAll true,
          Event.buildAttempt false true,
          Event.logE LogLevel.success "Build successful"], true)
      | false =>
        ((Event.cleanDeps s.cleanOk ::
           (if s.cleanOk then [] else [Event.logE LogLevel.warn "Could not clean dependencies"])) ++
         [Event.installTarget i true, Event.installAll true,
          Event.buildAttempt false false,
          Event.buildAttempt true s.legacyBuildOk] ++
         (if s.legacyBuildOk then [Event.logE LogLevel.success "Build successful"]
          else [Event.logE LogLevel.error "Build failed"]), s.legacyBuildOk)

/-- The step result as a predicate on the step's environment: installs
succeeded and some build strategy succeeded. -/
def stepResult (s : StepEnv) : Bool :=
  s.installTargetOk && s.installAllOk && (s.modernBuildOk || s.legacyBuildOk)

/-- Trace of the orchestrator's failure branch after a failed step: warning
log, `this.backup.restore()`, then `this.installDependencies()` (result
ignored), then `continue` to the next step. -/
def failPost (s : StepEnv) : List Event :=
  Event.logE LogLevel.warn "Upgrade failed, trying fallback" ::
  Event.restoreBackup ::
  (installDependencies s.restoreInstallOk).1

/-- Trace of the orchestrator's success branch after a successful step:
success log, `updateWorkflowForNewVersion()`, `installDependencies()` (result
ignored), then the final `this.tester.testBuild()` — the legacy-strategy
invocation — whose outcome decides the whole run. -/
def successPost (s : StepEnv) : List Event :=
  Event.logE LogLevel.success "Successfully upgraded" ::
  Event.patchWorkflow ::
  (installDependencies s.finalInstallOk).1 ++
  (Event.logE LogLevel.info "Performing final build test..." ::
   Event.buildAttempt true s.finalBuildOk ::
   (if s.finalBuildOk then [Event.logE LogLevel.success "Upgrade completed successfully!"]
    else [Event.logE LogLevel.error "Final build test failed"]))

/-- Full trace of one failed step inside the loop. -/
def stepFailTrace (i : Nat) (s : StepEnv) : List Event :=
  (Event.attemptStep i :: (upgradeToVersion i s).1) ++ failPost s

/-- Full trace of the successful step that ends the loop. -/
def stepSuccessTrace (i : Nat) (s : StepEnv) : List Event :=
  (Event.attemptStep i :: (upgradeToVersion i s).1) ++ successPost s

/-- Concatenated traces of a block of consecutive failed steps starting at
path index `i`. -/
def failConcat (i : Nat) (L : List StepEnv) : List Event :=
  match L with
  | [] => []
  | s :: rest => stepFailTrace i s ++ failConcat (i + 1) rest

/-- The `for (const upgrade of this.upgradePath)` loop of `performUpgrade`,
starting at path index `i`: on step success run the success branch and return
the final build test's outcome; on step failure run the failure branch and
continue; when the path is exhausted log an error and return `false`. -/
def upgradeLoop : Nat → List StepEnv → List Event × Bool
  | _, [] => ([Event.logE LogLevel.error "All upgrade attempts failed"], false)
  | i, s :: rest =>
    if (upgradeToVersion i s).2 then
      ((Event.attemptStep i :: (upgradeToVersion i s).1) ++ successPost s, s.finalBuildOk)
    else
      ((Event.attemptStep i :: (upgradeToVersion i s).1) ++ failPost s ++
        (upgradeLoop (i + 1) rest).1,
       (upgradeLoop (i + 1) rest).2)

/-- `performUpgrade`: create the backup — if that returns `false`, log an
error and return `false` immediately; otherwise apply the two cosmetic
manifest edits and enter the per-step loop. -/
def performUpgrade (e : Env) : List Event × Bool :=
  if e.createOk then
    (Event.createBackup true ::
      (updateHomepageUrl e.homepageOk ++ handleCompatibilityIssues e.browserslistOk ++
        (upgradeLoop 0 e.steps).1),
     (upgradeLoop 0 e.steps).2)
  else
    ([Event.createBackup false,
      Event.logE LogLevel.error "Failed to create backup - aborting"], false)

/-- The CLI driver `main`: run `performUpgrade`; on `true` log success and
exit `0`; on `false` log an error, call `upgrader.backup.restore()`, and exit
`1`.  Returns the run's trace and exit code. -/
def mainRun (e : Env) : List Event × Nat :=
  if (performUpgrade e).2 then
    ((performUpgrade e).1 ++
       [Event.logE LogLevel.success "React Scripts upgrade completed successfully!"], 0)
  else
    ((performUpgrade e).1 ++
       [Event.logE LogLevel.error "Upgrade failed - restoring backup",
        Event.restoreBackup], 1)

/-- A step environment with the success-path reinstall outcome replaced:
used to state that `performUpgrade` never consults that outcome. -/
def withFinalInstall (s : StepEnv) (b : Bool) : StepEnv :=
  ⟨s.cleanOk, s.installTargetOk, s.installAllOk, s.modernBuildOk,
   s.legacyBuildOk, s.restoreInstallOk, b, s.finalBuildOk⟩

/-- Leftmost, non-overlapping replacement of `pat` by `repl`, fuelled by the
input length; replacements are not rescanned within one application — the
semantics of a JavaScript global-regex `String.replace` with a literal
pattern. -/
def replaceFuel (pat repl : List Char) : Nat → List Char → List Char
  | 0, s => s
  | _ + 1, [] => []
  | n + 1, c :: rest =>
    if List.isPrefixOf pat (c :: rest) then
      repl ++ replaceFuel pat repl n (List.drop pat.length (c :: rest))
    else
      c :: replaceFuel pat repl n rest

/-- All-occurrence replacement of `pat` by `repl` in `s`. -/
def replaceAll (pat repl s : List Char) : List Char :=
  replaceFuel pat repl s.length s

/-- The third substitution of `updateWorkflowForNewVersion`:
`workflow.replace(/claude-sequencer/g, 'claude-sequencer64')` applied to the
workflow text. -/
def renameSequencerToken (s : List Char) : List Char :=
  replaceAll ("claude-sequencer".toList) ("claude-sequencer64".toList) s

/-- An all-operations-succeed step environment (concrete test data). -/
def stepAllOk : StepEnv := ⟨true, true, true, true, true, true, true, true⟩

/-- A step whose two build strategies both fail (concrete test data). -/
def stepFailBuilds : StepEnv := ⟨true, true, true, false, false, true, true, true⟩

/-- A step that succeeds but whose final build test fails (concrete test
data). -/
def stepFinalFail : StepEnv := ⟨true, true, true, true, true, true, true, false⟩

/-- End-to-end verification of one step: the step's own install-and-build
verification succeeds and the subsequent final build test succeeds. -/
def endToEndPass (s : StepEnv) : Bool :=
  stepResult s && s.finalBuildOk

/-- The file system after: `create()` on `fs`, external mutation of the live
files to `(some m2, l2)` (state at the second call), a second `create()`,
external mutation of the live files to `(m3, l3)`, then `restore()`. -/
def createTwiceRestore (fs : FS) (m2 : String) (l2 m3 l3 : Option String) : FS :=
  (PackageBackup.restore (PackageBackup.setLive
    (PackageBackup.create
      (PackageBackup.setLive (PackageBackup.create fs).1 (some m2) l2)).1
    m3 l3)).1

/-! ## Helper lemmas -/

/-- The boolean returned by `upgradeToVersion` is `stepResult`. -/
theorem upgradeToVersion_snd (i : Nat) (s : StepEnv) :
    (upgradeToVersion i s).2 = stepResult s := by
  obtain ⟨c, it, ia, mb, lb, ri, fi, fb⟩ := s
  cases it <;> cases ia <;> cases mb <;> cases lb <;> rfl

/-- `stepResult` ignores the success-path reinstall outcome. -/
theorem stepResult_withFinalInstall (s : StepEnv) (b : Bool) :
    stepResult (withFinalInstall s b) = stepResult s := rfl

/-- Splitting the loop at the first successful step: all steps of `L1` fail,
`s` succeeds, so the loop trace is the failed-step traces in order followed by
the successful step's trace, and the loop result is `s`'s final build test. -/
theorem upgradeLoop_split (L1 : List StepEnv) (s : StepEnv) (rest : List StepEnv)
    (i : Nat) (hfail : ∀ t ∈ L1, stepResult t = false)
    (hsucc : stepResult s = true) :
    upgradeLoop i (L1 ++ s :: rest) =
      (failConcat i L1 ++ stepSuccessTrace (i + L1.length) s, s.finalBuildOk) := by
  induction L1 generalizing i with
  | nil =>
    simp only [List.nil_append, failConcat, upgradeLoop, upgradeToVersion_snd, hsucc,
      if_true, List.length_nil, Nat.add_zero, stepSuccessTrace]
  | cons t L1' ih =>
    have ht : stepResult t = false := hfail t (List.mem_cons_self t L1')
    have ih' := ih (i + 1) (fun u hu => hfail u (List.mem_cons_of_mem t hu))
    have harith : i + (L1'.length + 1) = i + 1 + L1'.length := by omega
    simp only [List.cons_append, upgradeLoop, upgradeToVersion_snd, ht, Bool.false_eq_true,
      if_false, failConcat, stepFailTrace, List.length_cons, List.append_eq, ih', harith,
      List.append_assoc]

/-- No step-attempt marker occurs inside a single step's operation trace. -/
theorem attemptStep_not_mem_upgradeToVersion (j i : Nat) (s : StepEnv) :
    Event.attemptStep j ∉ (upgradeToVersion i s).1 := by
  obtain ⟨c, it, ia, mb, lb, ri, fi, fb⟩ := s
  cases c <;> cases it <;> cases ia <;> cases mb <;> cases lb <;> simp [upgradeToVersion]

/-- No step-attempt marker occurs in an install trace. -/
theorem attemptStep_not_mem_installDependencies (j : Nat) (b : Bool) :
    Event.attemptStep j ∉ (installDependencies b).1 := by
  cases b <;> simp [installDependencies]

/-- No step-attempt marker occurs in the failure branch after a step. -/
theorem attemptStep_not_mem_failPost (j : Nat) (s : StepEnv) :
    Event.attemptStep j ∉ failPost s := by
  have h := attemptStep_not_mem_installDependencies j s.restoreInstallOk
  simp [failPost, h]

/-- No step-attempt marker occurs in the success branch after a step. -/
theorem attemptStep_not_mem_successPost (j : Nat) (s : StepEnv) :
    Event.attemptStep j ∉ successPost s := by
  have h := attemptStep_not_mem_installDependencies j s.finalInstallOk
  cases hf : s.finalBuildOk <;> simp [successPost, h, hf]

/-- The step-attempt markers of a failed step's trace: exactly its own index. -/
theorem attemptStep_mem_stepFailTrace (j i : Nat) (s : StepEnv) :
    Event.attemptStep j ∈ stepFailTrace i s ↔ j = i := by
  have h1 := attemptStep_not_mem_upgradeToVersion j i s
  have h2 := attemptStep_not_mem_failPost j s
  simp [stepFailTrace, h1, h2]

/-- The step-attempt markers of the successful step's trace: exactly its own
index. -/
theorem attemptStep_mem_stepSuccessTrace (j i : Nat) (s : StepEnv) :
    Event.attemptStep j ∈ stepSuccessTrace i s ↔ j = i := by
  have h1 := attemptStep_not_mem_upgradeToVersion j i s
  have h2 := attemptStep_not_mem_successPost j s
  simp [stepSuccessTrace, h1, h2]

/-- The step-attempt markers of a block of failed steps starting at index `i`
are exactly the indices `i, …, i + length - 1`. -/
theorem attemptStep_mem_failConcat (j i : Nat) (L : List StepEnv) :
    Event.attemptStep j ∈ failConcat i L ↔ (i ≤ j ∧ j < i + L.length) := by
  induction L generalizing i with
  | nil => simp [failConcat]
  | cons t L' ih =>
    simp only [failConcat, List.mem_append, attemptStep_mem_stepFailTrace, ih,
      List.length_cons]
    omega

/-- No step-attempt marker occurs in the cosmetic-edit traces. -/
theorem attemptStep_not_mem_edits (j : Nat) (h b : Bool) :
    Event.attemptStep j ∉ updateHomepageUrl h ∧
      Event.attemptStep j ∉ handleCompatibilityIssues b := by
  cases h <;> cases b <;> simp [updateHomepageUrl, handleCompatibilityIssues]

/-- No restore happens inside a single step's operation trace. -/
theorem restore_not_mem_upgradeToVersion (i : Nat) (s : StepEnv) :
    Event.restoreBackup ∉ (upgradeToVersion i s).1 := by
  obtain ⟨c, it, ia, mb, lb, ri, fi, fb⟩ := s
  cases c <;> cases it <;> cases ia <;> cases mb <;> cases lb <;> simp [upgradeToVersion]

/-- No restore happens inside an install trace. -/
theorem restore_not_mem_installDependencies (b : Bool) :
    Event.restoreBackup ∉ (installDependencies b).1 := by
  cases b <;> simp [installDependencies]

/-- A failed step's trace performs exactly one restore. -/
theorem count_restore_stepFailTrace (i : Nat) (s : StepEnv) :
    (stepFailTrace i s).count Event.restoreBackup = 1 := by
  have h1 := restore_not_mem_upgradeToVersion i s
  have h2 := restore_not_mem_installDependencies s.restoreInstallOk
  simp [stepFailTrace, failPost, List.count_append, List.count_cons,
    List.count_eq_zero.mpr h1, List.count_eq_zero.mpr h2]

/-- The successful step's trace performs no restore. -/
theorem count_restore_stepSuccessTrace (i : Nat) (s : StepEnv) :
    (stepSuccessTrace i s).count Event.restoreBackup = 0 := by
  have h1 := restore_not_mem_upgradeToVersion i s
  have h2 := restore_not_mem_installDependencies s.finalInstallOk
  cases hf : s.finalBuildOk <;>
    simp [stepSuccessTrace, successPost, List.count_append, List.count_cons,
      List.count_eq_zero.mpr h1, List.count_eq_zero.mpr h2, hf]

/-- A block of failed steps performs exactly one restore per step. -/
theorem count_restore_failConcat (i : Nat) (L : List StepEnv) :
    (failConcat i L).count Event.restoreBackup = L.length := by
  induction L generalizing i with
  | nil => simp [failConcat]
  | cons t L' ih =>
    simp [failConcat, List.count_append, count_restore_stepFailTrace, ih]
    omega

/-- The cosmetic-edit traces perform no restore. -/
theorem count_restore_edits (h b : Bool) :
    (updateHomepageUrl h).count Event.restoreBackup = 0 ∧
      (handleCompatibilityIssues b).count Event.restoreBackup = 0 := by
  cases h <;> cases b <;> simp [updateHomepageUrl, handleCompatibilityIssues]

/-! ## Claim theorems -/

/-- C10: the workflow patch's token-rename substitution replaces every
occurrence of the substring `claude-sequencer`, including the occurrence
inside an already-renamed `claude-sequencer64` token, so applying the rename
to its own output yields `claude-sequencer6464` — the patch is not
idempotent. -/
theorem workflow_rename_not_idempotent :
    renameSequencerToken ("claude-sequencer".toList) = "claude-sequencer64".toList ∧
    renameSequencerToken ("claude-sequencer64".toList) = "claude-sequencer6464".toList ∧
    renameSequencerToken (renameSequencerToken ("claude-sequencer".toList)) ≠
      renameSequencerToken ("claude-sequencer".toList) := by
  refine ⟨by decide, by decide, ?_⟩
  decide

/-- C7: `testBuild` returns `true` iff the external build command exited
successfully within the timeout; the artifact-directory inspection never
changes the returned value; a failed command yields `false` with the captured
standard output and standard error logged at error level. -/
theorem testBuild_exit_status_sole (exitOk : Bool) (stdout stderr : String)
    (d d' : Option (List String)) :
    (BuildTester.testBuild exitOk stdout stderr d).1 = exitOk ∧
    (BuildTester.testBuild exitOk stdout stderr d).1 =
      (BuildTester.testBuild exitOk stdout stderr d').1 ∧
    (exitOk = false →
      Event.logE LogLevel.error
          ("Build stderr: " ++ (if stderr = "" then "No stderr" else stderr)) ∈
        (BuildTester.testBuild exitOk stdout stderr d).2 ∧
      Event.logE LogLevel.error
          ("Build stdout: " ++ (if stdout = "" then "No stdout" else stdout)) ∈
        (BuildTester.testBuild exitOk stdout stderr d).2) := by
  cases exitOk <;> simp [BuildTester.testBuild]

/-- C7 witness: a concrete failing build with captured output. -/
theorem testBuild_exit_status_sole_witness :
    (BuildTester.testBuild false "out" "err" (some ["a"])).1 = false ∧
    (BuildTester.testBuild false "out" "err" (some ["a"])).1 =
      (BuildTester.testBuild false "out" "err" none).1 ∧
    (false = false →
      Event.logE LogLevel.error
          ("Build stderr: " ++ (if "err" = "" then "No stderr" else "err")) ∈
        (BuildTester.testBuild false "out" "err" (some ["a"])).2 ∧
      Event.logE LogLevel.error
          ("Build stdout: " ++ (if "out" = "" then "No stdout" else "out")) ∈
        (BuildTester.testBuild false "out" "err" (some ["a"])).2) :=
  testBuild_exit_status_sole false "out" "err" (some ["a"]) none

/-- C5: within a step's build verification, the modern invocation is
attempted first; exactly when it fails, the legacy invocation is attempted;
the step verification succeeds when either strategy succeeds — in particular
when the modern one fails and the legacy one succeeds. -/
theorem strategy_fallback (i : Nat) (s : StepEnv)
    (h1 : s.installTargetOk = true) (h2 : s.installAllOk = true) :
    ((upgradeToVersion i s).1.filter Event.isBuild =
      (if s.modernBuildOk then [Event.buildAttempt false true]
       else [Event.buildAttempt false false, Event.buildAttempt true s.legacyBuildOk])) ∧
    (upgradeToVersion i s).2 = (s.modernBuildOk || s.legacyBuildOk) ∧
    (s.modernBuildOk = false → s.legacyBuildOk = true → (upgradeToVersion i s).2 = true) := by
  obtain ⟨c, it, ia, mb, lb, ri, fi, fb⟩ := s
  simp only at h1 h2
  subst h1 h2
  cases c <;> cases mb <;> cases lb <;>
    simp [upgradeToVersion, Event.isBuild, List.filter]

/-- C5 witness: a step whose modern build fails and whose legacy build
succeeds is verified successfully. -/
theorem strategy_fallback_witness :
    (upgradeToVersion 0 ⟨true, true, true, false, true, true, true, true⟩).2 = true :=
  (strategy_fallback 0 ⟨true, true, true, false, true, true, true, true⟩ rfl rfl).2.2
    rfl rfl

/-- C8: after a successful `create()`, arbitrary mutation of the live
manifest and lock file followed by `restore()` puts the byte-exact manifest
back, and the byte-exact captured lock file whenever one was captured. -/
theorem backup_roundtrip (fs : FS) (M : String) (m l : Option String)
    (hm : fs.manifest = some M) :
    (PackageBackup.create fs).2 = true ∧
    (PackageBackup.restore (PackageBackup.setLive (PackageBackup.create fs).1 m l)).2 = true ∧
    ((PackageBackup.restore (PackageBackup.setLive (PackageBackup.create fs).1 m l)).1).manifest
      = some M ∧
    (∀ L, fs.lockFile = some L →
      ((PackageBackup.restore (PackageBackup.setLive (PackageBackup.create fs).1 m l)).1).lockFile
        = some L) := by
  obtain ⟨ma, lo, mb, lb⟩ := fs
  simp only at hm
  subst hm
  cases lo <;> simp [PackageBackup.create, PackageBackup.restore, PackageBackup.setLive]

/-- C8 witness: a concrete round-trip through mutation. -/
theorem backup_roundtrip_witness :
    (PackageBackup.create ⟨some "M", some "L", none, none⟩).2 = true ∧
    (PackageBackup.restore (PackageBackup.setLive
        (PackageBackup.create ⟨some "M", some "L", none, none⟩).1
        (some "mutated") none)).2 = true ∧
    ((PackageBackup.restore (PackageBackup.setLive
        (PackageBackup.create ⟨some "M", some "L", none, none⟩).1
        (some "mutated") none)).1).manifest = some "M" ∧
    (∀ L, (⟨some "M", some "L", none, none⟩ : FS).lockFile = some L →
      ((PackageBackup.restore (PackageBackup.setLive
          (PackageBackup.create ⟨some "M", some "L", none, none⟩).1
          (some "mutated") none)).1).lockFile = some L) :=
  backup_roundtrip ⟨some "M", some "L", none, none⟩ "M" (some "mutated") none rfl

/-- C2 counterexample: `create()` with the lock file present, then `create()`
again with the lock file absent, leaves the first snapshot's lock backup on
disk; `restore()` then resurrects the first snapshot's lock file, so the
state as of the second `create()` (no lock file) is not what is recovered. -/
theorem create_twice_lock_leak_cex :
    ((PackageBackup.setLive
        (PackageBackup.create ⟨some "M1", some "L1", none, none⟩).1
        (some "M2") none).lockFile = none) ∧
    ((PackageBackup.create (PackageBackup.setLive
        (PackageBackup.create ⟨some "M1", some "L1", none, none⟩).1
        (some "M2") none)).2 = true) ∧
    (createTwiceRestore ⟨some "M1", some "L1", none, none⟩ "M2" none (some "M2") none).lockFile
      = some "L1" := by
  decide

/-- C2 amended: after two `create()` calls, `restore()` reproduces the
manifest byte-exact as of the second `create()`; the lock file is reproduced
byte-exact whenever it was present at the second `create()`; when it was
absent there, `restore()` does not reproduce its absence — it leaves the
mutated live lock file in place (and, when the first `create()` captured a
lock backup, resurrects the first snapshot's lock file instead, per the
counterexample). -/
theorem create_twice_second_recoverable (fs : FS) (m1 m2 : String)
    (l2 m3 l3 : Option String) (hm : fs.manifest = some m1) :
    (PackageBackup.create
        (PackageBackup.setLive (PackageBackup.create fs).1 (some m2) l2)).2 = true ∧
    (createTwiceRestore fs m2 l2 m3 l3).manifest = some m2 ∧
    (∀ L, l2 = some L → (createTwiceRestore fs m2 l2 m3 l3).lockFile = some L) ∧
    (l2 = none → fs.lockFile = none → fs.lockBak = none →
      (createTwiceRestore fs m2 l2 m3 l3).lockFile = l3) := by
  obtain ⟨ma, lo, mb, lb⟩ := fs
  simp only at hm
  subst hm
  cases lo <;> cases l2 <;> cases lb <;>
    simp [createTwiceRestore, PackageBackup.create, PackageBackup.restore,
      PackageBackup.setLive]

/-- C2 witness: a concrete two-`create()` sequence with the lock file present
at the second call round-trips exactly. -/
theorem create_twice_second_recoverable_witness :
    (createTwiceRestore ⟨some "M1", some "L1", none, none⟩ "M2" (some "L2")
        (some "M3") none).manifest = some "M2" ∧
    (createTwiceRestore ⟨some "M1", some "L1", none, none⟩ "M2" (some "L2")
        (some "M3") none).lockFile = some "L2" :=
  ⟨(create_twice_second_recoverable ⟨some "M1", some "L1", none, none⟩ "M1" "M2"
      (some "L2") (some "M3") none rfl).2.1,
   (create_twice_second_recoverable ⟨some "M1", some "L1", none, none⟩ "M1" "M2"
      (some "L2") (some "M3") none rfl).2.2.1 "L2" rfl⟩

/-- C1 counterexample: when backup creation fails, the top-level driver
`main` still invokes `restore()` on its failure path before exiting 1 — a
rollback call is performed, contrary to the claim. -/
theorem backup_failure_still_restores_cex :
    (performUpgrade ⟨false, true, true, [stepAllOk]⟩).2 = false ∧
    Event.restoreBackup ∈ (mainRun ⟨false, true, true, [stepAllOk]⟩).1 ∧
    (mainRun ⟨false, true, true, [stepAllOk]⟩).2 = 1 := by
  decide

/-- C1 amended: when backup creation fails, `performUpgrade` stops
immediately with failure — its trace is just the failed backup attempt and an
error log, so no manifest mutation, no step attempt and no restore happened
inside the run; the top-level driver then exits with code 1, and it (not the
orchestrator) does invoke `restore()` on this failure path. -/
theorem abort_before_mutation_amended (e : Env) (h : e.createOk = false) :
    (performUpgrade e).2 = false ∧
    (performUpgrade e).1 =
      [Event.createBackup false,
       Event.logE LogLevel.error "Failed to create backup - aborting"] ∧
    (mainRun e).2 = 1 ∧
    Event.restoreBackup ∈ (mainRun e).1 := by
  have hp : performUpgrade e =
      ([Event.createBackup false,
        Event.logE LogLevel.error "Failed to create backup - aborting"], false) := by
    simp [performUpgrade, h]
  refine ⟨by simp [hp], by simp [hp], by simp [mainRun, hp], by simp [mainRun, hp]⟩

/-- C1 witness: the amended behavior at a concrete environment. -/
theorem abort_before_mutation_amended_witness :
    (performUpgrade ⟨false, false, false, [stepFailBuilds]⟩).1 =
      [Event.createBackup false,
       Event.logE LogLevel.error "Failed to create backup - aborting"] ∧
    (mainRun ⟨false, false, false, [stepFailBuilds]⟩).2 = 1 :=
  ⟨(abort_before_mutation_amended ⟨false, false, false, [stepFailBuilds]⟩ rfl).2.1,
   (abort_before_mutation_amended ⟨false, false, false, [stepFailBuilds]⟩ rfl).2.2.1⟩

/-- C3 counterexample: when the homepage edit fails, the failure is logged at
error level, and the run's trace contains no warning-level entry at all — the
claim's "logged at warning level" is false for this edit.  (The run still
proceeds and succeeds, so non-fatality itself holds.) -/
theorem homepage_edit_error_level_cex :
    Event.logE LogLevel.error "Failed to update homepage" ∈
      (performUpgrade ⟨true, false, true, [stepAllOk]⟩).1 ∧
    (performUpgrade ⟨true, false, true, [stepAllOk]⟩).1.filter Event.isWarn = [] ∧
    (performUpgrade ⟨true, false, true, [stepAllOk]⟩).2 = true := by
  decide

/-- C3 amended: a failing homepage edit is logged at error level and a
failing browser-support edit at warning level; neither is fatal — for any
edit outcomes the run proceeds to the per-step install/verify loop, whose
trace and result are exactly those of the loop. -/
theorem nonfatal_edit_failures_amended (e : Env) (hcreate : e.createOk = true) :
    (performUpgrade e).2 = (upgradeLoop 0 e.steps).2 ∧
    (performUpgrade e).1 =
      Event.createBackup true ::
        (updateHomepageUrl e.homepageOk ++ handleCompatibilityIssues e.browserslistOk ++
          (upgradeLoop 0 e.steps).1) ∧
    (e.homepageOk = false →
      Event.logE LogLevel.error "Failed to update homepage" ∈ (performUpgrade e).1) ∧
    (e.browserslistOk = false →
      Event.logE LogLevel.warn "Could not update browserslist" ∈ (performUpgrade e).1) := by
  have hp : performUpgrade e =
      (Event.createBackup true ::
        (updateHomepageUrl e.homepageOk ++ handleCompatibilityIssues e.browserslistOk ++
          (upgradeLoop 0 e.steps).1),
       (upgradeLoop 0 e.steps).2) := by
    simp [performUpgrade, hcreate]
  refine ⟨by simp [hp], by simp [hp], ?_, ?_⟩
  · intro hh
    simp [hp, updateHomepageUrl, hh]
  · intro hb
    simp [hp, handleCompatibilityIssues, hb]

/-- C3 witness: both edits fail at a concrete environment and the loop still
runs. -/
theorem nonfatal_edit_failures_amended_witness :
    Event.logE LogLevel.error "Failed to update homepage" ∈
      (performUpgrade ⟨true, false, false, [stepAllOk]⟩).1 ∧
    Event.logE LogLevel.warn "Could not update browserslist" ∈
      (performUpgrade ⟨true, false, false, [stepAllOk]⟩).1 ∧
    (performUpgrade ⟨true, false, false, [stepAllOk]⟩).2 =
      (upgradeLoop 0 [stepAllOk]).2 :=
  ⟨(nonfatal_edit_failures_amended ⟨true, false, false, [stepAllOk]⟩ rfl).2.2.1 rfl,
   (nonfatal_edit_failures_amended ⟨true, false, false, [stepAllOk]⟩ rfl).2.2.2 rfl,
   (nonfatal_edit_failures_amended ⟨true, false, false, [stepAllOk]⟩ rfl).1⟩

/-- C4 counterexample: the first step passes its own verification but fails
the final build test, and the second step would pass end-to-end.  The second
step is the first whose full end-to-end verification passes, yet the run
fails without attempting it, and no restore is ever invoked — contradicting
the claim's "attempts steps 1..k-1 (restore after each), succeeds at k". -/
theorem step_ordering_cex :
    endToEndPass stepFinalFail = false ∧
    endToEndPass stepAllOk = true ∧
    (performUpgrade ⟨true, true, true, [stepFinalFail, stepAllOk]⟩).2 = false ∧
    Event.attemptStep 1 ∉ (performUpgrade ⟨true, true, true, [stepFinalFail, stepAllOk]⟩).1 ∧
    Event.restoreBackup ∉ (performUpgrade ⟨true, true, true, [stepFinalFail, stepAllOk]⟩).1 := by
  decide

/-- C4 amended: if the first `k` steps of the path each fail their own
install-and-build verification and the step at index `k` passes both its own
verification and the final build test, then the run succeeds, attempts
exactly the steps up to index `k` in path order with one restore per failed
step, and never attempts any later step; the run's trace is exactly the
failed-step traces in order followed by the successful step's trace. -/
theorem step_ordering_amended (e : Env) (L1 : List StepEnv) (s : StepEnv)
    (rest : List StepEnv) (hsteps : e.steps = L1 ++ s :: rest)
    (hfail : ∀ t ∈ L1, stepResult t = false)
    (hsucc : stepResult s = true)
    (hfinal : s.finalBuildOk = true)
    (hcreate : e.createOk = true) :
    (performUpgrade e).2 = true ∧
    (∀ j, j ≤ L1.length → Event.attemptStep j ∈ (performUpgrade e).1) ∧
    (∀ j, L1.length < j → Event.attemptStep j ∉ (performUpgrade e).1) ∧
    (performUpgrade e).1.count Event.restoreBackup = L1.length ∧
    (performUpgrade e).1 =
      Event.createBackup true ::
        (updateHomepageUrl e.homepageOk ++ handleCompatibilityIssues e.browserslistOk ++
          (failConcat 0 L1 ++ stepSuccessTrace L1.length s)) := by
  have hloop := upgradeLoop_split L1 s rest 0 hfail hsucc
  have hp : performUpgrade e =
      (Event.createBackup true ::
        (updateHomepageUrl e.homepageOk ++ handleCompatibilityIssues e.browserslistOk ++
          (failConcat 0 L1 ++ stepSuccessTrace L1.length s)),
       s.finalBuildOk) := by
    simp [performUpgrade, hcreate, hsteps, hloop]
  have hmem : ∀ j, Event.attemptStep j ∈ (performUpgrade e).1 ↔ j ≤ L1.length := by
    intro j
    have he := attemptStep_not_mem_edits j e.homepageOk e.browserslistOk
    simp [hp, List.mem_cons, List.mem_append, attemptStep_mem_failConcat,
      attemptStep_mem_stepSuccessTrace, he.1, he.2]
    omega
  have hcount : (performUpgrade e).1.count Event.restoreBackup = L1.length := by
    have he := count_restore_edits e.homepageOk e.browserslistOk
    simp [hp, List.count_cons, List.count_append, he.1, he.2,
      count_restore_failConcat, count_restore_stepSuccessTrace]
  exact ⟨by simp [hp, hfinal], fun j hj => (hmem j).mpr hj,
    fun j hj hmem' => by have := (hmem j).mp hmem'; omega, hcount, by simp [hp]⟩

/-- C4 witness: one failed step then one fully successful step — the run
succeeds with exactly one restore. -/
theorem step_ordering_amended_witness :
    (performUpgrade ⟨true, true, true, [stepFailBuilds, stepAllOk]⟩).2 = true ∧
    (performUpgrade ⟨true, true, true, [stepFailBuilds, stepAllOk]⟩).1.count
      Event.restoreBackup = 1 :=
  ⟨(step_ordering_amended ⟨true, true, true, [stepFailBuilds, stepAllOk]⟩
      [stepFailBuilds] stepAllOk [] rfl (by decide) (by decide) rfl rfl).1,
   (step_ordering_amended ⟨true, true, true, [stepFailBuilds, stepAllOk]⟩
      [stepFailBuilds] stepAllOk [] rfl (by decide) (by decide) rfl rfl).2.2.2.1⟩

/-- C6: once a step's own verification succeeds, one final build verification
using the legacy strategy is run and its outcome is the outcome of the whole
run — it ends the iteration whether it passes (`DONE`) or fails (`FAILED`),
and no later step of the path is ever attempted. -/
theorem final_verification_gate (e : Env) (L1 : List StepEnv) (s : StepEnv)
    (rest : List StepEnv) (hsteps : e.steps = L1 ++ s :: rest)
    (hfail : ∀ t ∈ L1, stepResult t = false)
    (hsucc : stepResult s = true)
    (hcreate : e.createOk = true) :
    (performUpgrade e).2 = s.finalBuildOk ∧
    Event.buildAttempt true s.finalBuildOk ∈ successPost s ∧
    (performUpgrade e).1 =
      Event.createBackup true ::
        (updateHomepageUrl e.homepageOk ++ handleCompatibilityIssues e.browserslistOk ++
          (failConcat 0 L1 ++ stepSuccessTrace L1.length s)) ∧
    (∀ j, L1.length < j → Event.attemptStep j ∉ (performUpgrade e).1) := by
  have hloop := upgradeLoop_split L1 s rest 0 hfail hsucc
  have hp : performUpgrade e =
      (Event.createBackup true ::
        (updateHomepageUrl e.homepageOk ++ handleCompatibilityIssues e.browserslistOk ++
          (failConcat 0 L1 ++ stepSuccessTrace L1.length s)),
       s.finalBuildOk) := by
    simp [performUpgrade, hcreate, hsteps, hloop]
  refine ⟨by simp [hp], ?_, by simp [hp], ?_⟩
  · simp [successPost]
  · intro j hj hmem'
    have he := attemptStep_not_mem_edits j e.homepageOk e.browserslistOk
    simp [hp, List.mem_cons, List.mem_append, attemptStep_mem_failConcat,
      attemptStep_mem_stepSuccessTrace, he.1, he.2] at hmem'
    omega

/-- C6 witness: a concrete run whose winning step's final verification fails
ends in failure without trying the remaining step. -/
theorem final_verification_gate_witness :
    (performUpgrade ⟨true, true, true, [stepFinalFail, stepAllOk]⟩).2 =
      stepFinalFail.finalBuildOk ∧
    (∀ j, 0 < j →
      Event.attemptStep j ∉
        (performUpgrade ⟨true, true, true, [stepFinalFail, stepAllOk]⟩).1) :=
  ⟨(final_verification_gate ⟨true, true, true, [stepFinalFail, stepAllOk]⟩ []
      stepFinalFail [stepAllOk] rfl (by decide) (by decide) rfl).1,
   (final_verification_gate ⟨true, true, true, [stepFinalFail, stepAllOk]⟩ []
      stepFinalFail [stepAllOk] rfl (by decide) (by decide) rfl).2.2.2⟩

/-- C9: on the success path of a step, the boolean returned by the re-run
full dependency installation is ignored: for either value `b` control still
reaches the final legacy build verification, and the run's outcome equals
that final verification's result alone. -/
theorem install_result_ignored (e : Env) (L1 : List StepEnv) (s : StepEnv)
    (rest : List StepEnv) (b : Bool)
    (hsteps : e.steps = L1 ++ (withFinalInstall s b) :: rest)
    (hfail : ∀ t ∈ L1, stepResult t = false)
    (hsucc : stepResult s = true)
    (hcreate : e.createOk = true) :
    (performUpgrade e).2 = s.finalBuildOk ∧
    Event.installDeps b ∈ (performUpgrade e).1 ∧
    Event.buildAttempt true s.finalBuildOk ∈ (performUpgrade e).1 := by
  have hsucc' : stepResult (withFinalInstall s b) = true := by
    rw [stepResult_withFinalInstall]
    exact hsucc
  have hloop := upgradeLoop_split L1 (withFinalInstall s b) rest 0 hfail hsucc'
  have hp : performUpgrade e =
      (Event.createBackup true ::
        (updateHomepageUrl e.homepageOk ++ handleCompatibilityIssues e.browserslistOk ++
          (failConcat 0 L1 ++ stepSuccessTrace L1.length (withFinalInstall s b))),
       (withFinalInstall s b).finalBuildOk) := by
    simp [performUpgrade, hcreate, hsteps, hloop]
  refine ⟨by simp [hp, withFinalInstall], ?_, ?_⟩
  · cases b <;>
      simp [hp, stepSuccessTrace, successPost, installDependencies, withFinalInstall]
  · simp [hp, stepSuccessTrace, successPost, withFinalInstall]

/-- C9 witness: a concrete successful step whose success-path reinstall
fails; the final verification still runs and decides the outcome. -/
theorem install_result_ignored_witness :
    (performUpgrade ⟨true, true, true, [withFinalInstall stepAllOk false]⟩).2 =
      stepAllOk.finalBuildOk ∧
    Event.installDeps false ∈
      (performUpgrade ⟨true, true, true, [withFinalInstall stepAllOk false]⟩).1 :=
  ⟨(install_result_ignored ⟨true, true, true, [withFinalInstall stepAllOk false]⟩ []
      stepAllOk [] false rfl (by decide) (by decide) rfl).1,
   (install_result_ignored ⟨true, true, true, [withFinalInstall stepAllOk false]⟩ []
      stepAllOk [] false rfl (by decide) (by decide) rfl).2.1⟩
